import Mathlib

/-!
Verification development for the two command-line utilities.

* `ComputeReleaseDirectory.main` embeds
  `profiler/rocprof-trace-decoder/compute_release_directory.c`.
* `HipHostTest.main` embeds `examples/cpp-sdk-user/hip-host-test.cpp`.

Both programs are straight-line code with early returns.  A run is modelled
as a pure function from the program's inputs (build-time macros, command line,
behaviour of the GPU runtime) to what the process does: its exit status and
the text written to standard output and to the error stream.
-/

/-- The text that `printf("%d", i)` and `std::ostream << i` write for an
integer: its decimal digits, preceded by `-` when negative. -/
def fmt_d (i : Int) : String := toString i

/-- Number of newline characters in a text. -/
def newlines (s : String) : Nat := s.data.count '\n'

/-- A text is exactly one line: it ends with its only newline character. -/
def isOneLine (s : String) : Prop :=
  newlines s = 1 ∧ s.data.getLast? = some '\n'

namespace ComputeReleaseDirectory

/-- Compile-time platform macros seen by `compute_release_directory.c`:
`glibc` is `some (__GLIBC__, __GLIBC_MINOR__)`, the integer values of the two
macros, when `__GLIBC__` is defined; `x86_64` tells whether `__x86_64__` is
defined. -/
structure BuildConfig where
  glibc : Option (Int × Int)
  x86_64 : Bool
  deriving DecidableEq, Repr

/-- The values of a 32-bit `int`. -/
abbrev inIntRange (x : Int) : Prop := -2147483648 ≤ x ∧ x ≤ 2147483647

/-- Conversion of an integer to a 32-bit `int` (two's complement, modulo
`2 ^ 32`), as done by `int glibc_major = __GLIBC__;`. -/
def toInt32 (x : Int) : Int := (x + 2147483648) % 4294967296 - 2147483648

/-- The macro values of a configuration are representable in `int`, so that
lines 6-7 store them unchanged. -/
def BuildConfig.fitsInt (cfg : BuildConfig) : Prop :=
  match cfg.glibc with
  | some (major, minor) => inIntRange major ∧ inIntRange minor
  | none => True

/-- What a run of the selector does. -/
structure Run where
  exit : Int
  stdout : String
  stderr : String
  deriving DecidableEq, Repr

/-- The `#ifdef __x86_64__` block: `selected_arch` stays null unless the macro
is defined. -/
def selected_arch (cfg : BuildConfig) : Option String :=
  if cfg.x86_64 then some "x86_64" else none

/-- Embedding of `main` of `compute_release_directory.c`.  The macro values are
stored in the `int` variables `glibc_major` and `glibc_minor` (lines 6-7), and
it is these variables that are compared and printed. -/
def main (cfg : BuildConfig) : Run :=
  match cfg.glibc with
  | some (macro_major, macro_minor) =>
    let glibc_major : Int := toInt32 macro_major
    let glibc_minor : Int := toInt32 macro_minor
    if glibc_major = 2 then
      let selected_glibc_major : Int := 2
      if glibc_minor ≥ 28 then
        let selected_glibc_minor : Int := 28
        match selected_arch cfg with
        | none => ⟨1, "", "unsupported machine architecture\n"⟩
        | some arch =>
          ⟨0, "linux_glibc_" ++ fmt_d selected_glibc_major ++ "_" ++
                fmt_d selected_glibc_minor ++ "_" ++ arch ++ "\n", ""⟩
      else
        ⟨1, "", "unsupported glibc minor version " ++ fmt_d glibc_major ++ "." ++
                  fmt_d glibc_minor ++ "\n"⟩
    else
      ⟨1, "", "unsupported glibc version " ++ fmt_d glibc_major ++ "." ++
                fmt_d glibc_minor ++ "\n"⟩
  | none => ⟨1, "", "unsupported standard c library\n"⟩

end ComputeReleaseDirectory

namespace HipHostTest

/-- Error codes of the GPU runtime (`hipError_t`), printed as numbers. -/
abbrev hipError_t := Nat

/-- The success code of the runtime's header, `hipSuccess = 0`. -/
def hipSuccess : hipError_t := 0

/-- The two exceptions `std::stoi` throws. -/
inductive StoiError where
  | invalid_argument
  | out_of_range
  deriving DecidableEq, Repr

/-- White space skipped by `strtol` in the "C" locale (`isspace`). -/
def isspace (c : Char) : Bool :=
  c = ' ' || c = '\t' || c = '\n' || c = '\x0b' || c = '\x0c' || c = '\r'

/-- Value of a run of decimal digits, most significant first. -/
def digitsValue (ds : List Char) : Nat :=
  ds.foldl (fun acc c => 10 * acc + (c.toNat - 48)) 0

/-- The C++ standard library's `std::stoi(str)` (base 10, no position
argument), which the program calls on `argv[1]`: leading white space is
skipped, an optional sign is read, then the longest run of decimal digits;
whatever follows the digits is ignored.  Without a digit there is no
conversion (`std::invalid_argument`); a value that does not fit `int`
is `std::out_of_range`. -/
def stoi (str : String) : Except StoiError Int :=
  let rest := str.data.dropWhile isspace
  let signed : Bool × List Char :=
    match rest with
    | '-' :: t => (true, t)
    | '+' :: t => (false, t)
    | t => (false, t)
  let ds := signed.2.takeWhile Char.isDigit
  if ds = [] then .error .invalid_argument
  else
    let v : Int := if signed.1 then -(digitsValue ds : Int) else (digitsValue ds : Int)
    if v < -2147483648 ∨ 2147483647 < v then .error .out_of_range
    else .ok v

/-- The calls the program makes into the GPU runtime, with their arguments
(output pointers left out). -/
inductive Call where
  | hipRuntimeGetVersion
  | hipInit (flags : Nat)
  | hipDeviceGet (ordinal : Int)
  | hipDeviceGetName (len : Nat) (device : Int)
  | hipDeviceTotalMem (device : Int)
  deriving DecidableEq, Repr

/-- The GPU runtime as the program sees it: each call takes the runtime's
state and returns an error code, the value written through the output
pointer, and the new state.  Any behaviour of the library is an instance. -/
structure Runtime (σ : Type) where
  hipRuntimeGetVersion : σ → hipError_t × Int × σ
  hipInit : Nat → σ → hipError_t × σ
  hipDeviceGet : Int → σ → hipError_t × Int × σ
  hipDeviceGetName : Nat → Int → σ → hipError_t × String × σ
  hipDeviceTotalMem : Int → σ → hipError_t × Nat × σ

/-- What a run of the probe does: exit status, text on the two streams, the
runtime calls made in order, each with the error code it returned, and the
runtime's final state. -/
structure Run (σ : Type) where
  exit : Int
  stdout : String
  stderr : String
  trace : List (Call × hipError_t)
  state : σ

/-- Lines 9-18 of `main`: `device_ordinal` is `-1` unless `argc > 1`, in
which case it is `std::stoi(argv[1])`. -/
def device_ordinal (argv : List String) : Except StoiError Int :=
  if argv.length > 1 then stoi (argv.getD 1 "") else .ok (-1)

/-- Embedding of `main` of `hip-host-test.cpp`.  `what` is the text of
`e.what()` for the exception caught, `argv` the whole argument vector
(`argc = argv.length`), `memory_size` is a 64-bit `size_t`. -/
def main {σ : Type} (what : StoiError → String) (rt : Runtime σ) (s0 : σ)
    (argv : List String) : Run σ :=
  match device_ordinal argv with
  | .error e =>
    ⟨1, "", "could not parse device ordinal from command line: " ++ what e ++ "\n", [], s0⟩
  | .ok device_ordinal =>
    let r1 := rt.hipRuntimeGetVersion s0
    let t1 := [(Call.hipRuntimeGetVersion, r1.1)]
    if r1.1 ≠ hipSuccess then
      ⟨2, "", "Error getting runtime version: " ++ fmt_d r1.1 ++ "\n", t1, r1.2.2⟩
    else
      let runtime_version := r1.2.1
      let out1 := "HIP runtime version: " ++ fmt_d runtime_version ++ "\n"
      let r2 := rt.hipInit 0 r1.2.2
      let t2 := t1 ++ [(Call.hipInit 0, r2.1)]
      if device_ordinal < 0 then
        ⟨0, out1 ++ "Not testing on GPU device (no device ordinal passed)\n", "", t2, r2.2⟩
      else if r2.1 ≠ hipSuccess then
        ⟨3, out1, "Error initializing HIP: " ++ fmt_d r2.1 ++ " (ignored)\n", t2, r2.2⟩
      else
        let r3 := rt.hipDeviceGet device_ordinal r2.2
        let t3 := t2 ++ [(Call.hipDeviceGet device_ordinal, r3.1)]
        if r3.1 ≠ hipSuccess then
          ⟨4, out1, "Error getting device ordinal " ++ fmt_d device_ordinal ++ "\n", t3, r3.2.2⟩
        else
          let device := r3.2.1
          let r4 := rt.hipDeviceGetName (80 - 1) device r3.2.2
          let t4 := t3 ++ [(Call.hipDeviceGetName (80 - 1) device, r4.1)]
          if r4.1 ≠ hipSuccess then
            ⟨5, out1, "Error getting device name \n", t4, r4.2.2⟩
          else
            let device_name := r4.2.1
            let out2 := out1 ++ "Device name: " ++ device_name ++ "\n"
            let r5 := rt.hipDeviceTotalMem device r4.2.2
            let t5 := t4 ++ [(Call.hipDeviceTotalMem device, r5.1)]
            if r5.1 ≠ hipSuccess then
              ⟨6, out2, "Error getting device memory\n", t5, r5.2.2⟩
            else
              let memory_size : Nat := r5.2.1 % 2 ^ 64
              ⟨0, out2 ++ "Device memory: " ++ fmt_d (memory_size / 1024 / 1024 : Nat) ++ " MiB\n",
                "", t5, r5.2.2⟩

/-- A runtime without state whose five calls return the given error codes,
version, device handle, device name and memory size. -/
def constRuntime (e1 e2 e3 e4 e5 : hipError_t) (version device : Int) (name : String)
    (mem : Nat) : Runtime Unit where
  hipRuntimeGetVersion := fun _ => (e1, version, ())
  hipInit := fun _ _ => (e2, ())
  hipDeviceGet := fun _ _ => (e3, device, ())
  hipDeviceGetName := fun _ _ _ => (e4, name, ())
  hipDeviceTotalMem := fun _ _ => (e5, mem, ())

/-- Outcome of the version query, the first call of a run. -/
def versionResult {σ : Type} (rt : Runtime σ) (s0 : σ) : hipError_t × Int × σ :=
  rt.hipRuntimeGetVersion s0

/-- Outcome of `hipInit(0)` made after the version query. -/
def initResult {σ : Type} (rt : Runtime σ) (s0 : σ) : hipError_t × σ :=
  rt.hipInit 0 (versionResult rt s0).2.2

/-- Outcome of resolving device `n` after initialization. -/
def deviceResult {σ : Type} (rt : Runtime σ) (s0 : σ) (n : Int) : hipError_t × Int × σ :=
  rt.hipDeviceGet n (initResult rt s0).2

/-- Outcome of the name query (79 bytes requested) on the resolved device. -/
def nameResult {σ : Type} (rt : Runtime σ) (s0 : σ) (n : Int) : hipError_t × String × σ :=
  rt.hipDeviceGetName 79 (deviceResult rt s0 n).2.1 (deviceResult rt s0 n).2.2

/-- Outcome of the total-memory query on the resolved device. -/
def memResult {σ : Type} (rt : Runtime σ) (s0 : σ) (n : Int) : hipError_t × Nat × σ :=
  rt.hipDeviceTotalMem (deviceResult rt s0 n).2.1 (nameResult rt s0 n).2.2

/-- The five calls in program order for ordinal `n`, each with its outcome. -/
def fullTrace {σ : Type} (rt : Runtime σ) (s0 : σ) (n : Int) : List (Call × hipError_t) :=
  [(Call.hipRuntimeGetVersion, (versionResult rt s0).1),
   (Call.hipInit 0, (initResult rt s0).1),
   (Call.hipDeviceGet n, (deviceResult rt s0 n).1),
   (Call.hipDeviceGetName 79 (deviceResult rt s0 n).2.1, (nameResult rt s0 n).1),
   (Call.hipDeviceTotalMem (deviceResult rt s0 n).2.1, (memResult rt s0 n).1)]

/-- The exit status that names the first failing step among the five calls in
call order: 2, 3, 4, 5, 6, and 0 when none fails. -/
def firstFailure (e1 e2 e3 e4 e5 : hipError_t) : Int :=
  if e1 ≠ hipSuccess then 2
  else if e2 ≠ hipSuccess then 3
  else if e3 ≠ hipSuccess then 4
  else if e4 ≠ hipSuccess then 5
  else if e5 ≠ hipSuccess then 6
  else 0

/-- The version line written to standard output. -/
def versionLine (v : Int) : String := "HIP runtime version: " ++ fmt_d v ++ "\n"

/-- The message of the skip branch. -/
def skipMessage : String := "Not testing on GPU device (no device ordinal passed)\n"

/-- A text is the base-10 text of an integer: an optional minus sign followed
by one or more decimal digits and nothing else. -/
def isDecimalInteger (str : String) : Bool :=
  match str.data with
  | '-' :: ds => !ds.isEmpty && ds.all Char.isDigit
  | ds => !ds.isEmpty && ds.all Char.isDigit

/-- The exception text of GNU libstdc++, where `what()` is the name of the
throwing function. -/
def gnuWhat : StoiError → String := fun _ => "stoi"

end HipHostTest

/-! ## Text lemmas -/

theorem ite_char_ne {c : Prop} [Decidable c] {a b x : Char} (ha : a ≠ x) (hb : b ≠ x) :
    (if c then a else b) ≠ x := by
  split <;> assumption

theorem digitChar_ne_newline (n : Nat) : Nat.digitChar n ≠ '\n' := by
  unfold Nat.digitChar
  repeat (refine ite_char_ne (by decide) ?_)
  decide

theorem toDigitsCore_count_newline (b fuel : Nat) :
    ∀ (n : Nat) (ds : List Char),
      (Nat.toDigitsCore b fuel n ds).count '\n' = ds.count '\n' := by
  induction fuel with
  | zero => intro n ds; simp [Nat.toDigitsCore]
  | succ k ih =>
    intro n ds
    have hd : (Nat.digitChar (n % b) == '\n') = false := by
      simpa using digitChar_ne_newline (n % b)
    simp only [Nat.toDigitsCore]
    split_ifs
    · rw [List.count_cons, hd]; simp
    · rw [ih, List.count_cons, hd]; simp

theorem newlines_append (a b : String) : newlines (a ++ b) = newlines a + newlines b := by
  simp [newlines, String.data_append, List.count_append]

theorem newlines_nat (n : Nat) : newlines (toString n) = 0 := by
  show (Nat.repr n).data.count '\n' = 0
  simp [Nat.repr, Nat.toDigits, List.asString, toDigitsCore_count_newline]

theorem newlines_fmt_d (i : Int) : newlines (fmt_d i) = 0 := by
  cases i with
  | ofNat m => exact newlines_nat m
  | negSucc m =>
    show newlines ("-" ++ toString (m + 1)) = 0
    rw [newlines_append, newlines_nat]; rfl

theorem getLast_append_newline (a : String) : (a ++ "\n").data.getLast? = some '\n' := by
  simp [String.data_append]

/-! ## Release Directory Selector -/

namespace ComputeReleaseDirectory

theorem main_no_glibc (a : Bool) :
    main ⟨none, a⟩ = ⟨1, "", "unsupported standard c library\n"⟩ := rfl

theorem toInt32_of_inIntRange (x : Int) (h : inIntRange x) : toInt32 x = x := by
  obtain ⟨h1, h2⟩ := h
  unfold toInt32
  omega

theorem inIntRange_two : inIntRange 2 := by decide

theorem main_bad_major (major minor : Int) (a : Bool) (hr1 : inIntRange major)
    (hr2 : inIntRange minor) (h : major ≠ 2) :
    main ⟨some (major, minor), a⟩ =
      ⟨1, "", "unsupported glibc version " ++ fmt_d major ++ "." ++ fmt_d minor ++ "\n"⟩ := by
  simp only [main, toInt32_of_inIntRange major hr1, toInt32_of_inIntRange minor hr2, if_neg h]

theorem main_bad_minor (minor : Int) (a : Bool) (hr2 : inIntRange minor) (h : ¬ 28 ≤ minor) :
    main ⟨some (2, minor), a⟩ =
      ⟨1, "", "unsupported glibc minor version " ++ fmt_d 2 ++ "." ++ fmt_d minor ++ "\n"⟩ := by
  simp only [main, toInt32_of_inIntRange 2 inIntRange_two, toInt32_of_inIntRange minor hr2,
    if_true, ge_iff_le, if_neg h]

theorem main_bad_arch (minor : Int) (hr2 : inIntRange minor) (h : 28 ≤ minor) :
    main ⟨some (2, minor), false⟩ = ⟨1, "", "unsupported machine architecture\n"⟩ := by
  simp only [main, toInt32_of_inIntRange 2 inIntRange_two, toInt32_of_inIntRange minor hr2,
    if_true, ge_iff_le, if_pos h]
  rfl

theorem main_supported (minor : Int) (hr2 : inIntRange minor) (h : 28 ≤ minor) :
    main ⟨some (2, minor), true⟩ = ⟨0, "linux_glibc_2_28_x86_64\n", ""⟩ := by
  simp only [main, toInt32_of_inIntRange 2 inIntRange_two, toInt32_of_inIntRange minor hr2,
    if_true, ge_iff_le, if_pos h]
  rfl

/-- A major macro value outside `int` is narrowed before the comparison:
4294967298 is stored as 2 and accepted. -/
theorem main_narrows_major :
    main ⟨some (4294967298, 30), true⟩ = ⟨0, "linux_glibc_2_28_x86_64\n", ""⟩ := by
  rfl

/-- A minor macro value outside `int` is narrowed before the comparison:
2147483648 is stored as -2147483648 and rejected. -/
theorem main_narrows_minor :
    main ⟨some (2, 2147483648), true⟩ =
      ⟨1, "", "unsupported glibc minor version 2.-2147483648\n"⟩ := by
  rfl

theorem isOneLine_diagnostic (pre : String) (hpre : newlines pre = 0) (a b : Int) :
    isOneLine (pre ++ fmt_d a ++ "." ++ fmt_d b ++ "\n") := by
  refine ⟨?_, getLast_append_newline _⟩
  simp only [newlines_append, newlines_fmt_d, hpre]
  rfl

/-- C3: on an x86_64 build with glibc major 2 and any minor of at least 28 (a
value of the `int` variable, so at most 2147483647), the selector writes exactly
the line `linux_glibc_2_28_x86_64` to standard output, nothing to the error
stream, and exits 0; the detected minor does not appear. -/
theorem selector_normalizes_minor (minor : Int) (h : 28 ≤ minor) (hmax : minor ≤ 2147483647) :
    main ⟨some (2, minor), true⟩ = ⟨0, "linux_glibc_2_28_x86_64\n", ""⟩ :=
  main_supported minor ⟨by omega, hmax⟩ h

theorem selector_normalizes_minor_witness :
    (28 : Int) ≤ 30 ∧ (30 : Int) ≤ 2147483647 ∧
      main ⟨some (2, 30), true⟩ = ⟨0, "linux_glibc_2_28_x86_64\n", ""⟩ :=
  ⟨by decide, by decide, selector_normalizes_minor 30 (by decide) (by decide)⟩

/-- C4: for every detected glibc version (two `int` values) other than major 2
with minor at least 28, whatever the architecture, the selector exits 1 and the
error stream holds `unsupported glibc minor version <major>.<minor>` when major
is 2 (so minor is below 28) and `unsupported glibc version <major>.<minor>`
when major is not 2. -/
theorem selector_rejects_version (major minor : Int) (x86 : Bool)
    (hmajor : inIntRange major) (hminor : inIntRange minor)
    (h : ¬ (major = 2 ∧ 28 ≤ minor)) :
    (main ⟨some (major, minor), x86⟩).exit = 1 ∧
    (main ⟨some (major, minor), x86⟩).stdout = "" ∧
    (major = 2 → minor < 28 ∧ (main ⟨some (major, minor), x86⟩).stderr =
      "unsupported glibc minor version " ++ fmt_d major ++ "." ++ fmt_d minor ++ "\n") ∧
    (major ≠ 2 → (main ⟨some (major, minor), x86⟩).stderr =
      "unsupported glibc version " ++ fmt_d major ++ "." ++ fmt_d minor ++ "\n") := by
  by_cases hm : major = 2
  · subst hm
    have hlt : ¬ (28 ≤ minor) := fun h28 => h ⟨rfl, h28⟩
    rw [main_bad_minor minor x86 hminor hlt]
    exact ⟨rfl, rfl, fun _ => ⟨not_le.mp hlt, rfl⟩, fun hne => absurd rfl hne⟩
  · rw [main_bad_major major minor x86 hmajor hminor hm]
    exact ⟨rfl, rfl, fun heq => absurd heq hm, fun _ => rfl⟩

theorem selector_rejects_version_witness :
    (main ⟨some (2, 20), true⟩).exit = 1 ∧
    (main ⟨some (2, 20), true⟩).stdout = "" ∧
    ((2 : Int) = 2 → (20 : Int) < 28 ∧ (main ⟨some (2, 20), true⟩).stderr =
      "unsupported glibc minor version " ++ fmt_d 2 ++ "." ++ fmt_d 20 ++ "\n") ∧
    ((2 : Int) ≠ 2 → (main ⟨some (2, 20), true⟩).stderr =
      "unsupported glibc version " ++ fmt_d 2 ++ "." ++ fmt_d 20 ++ "\n") :=
  selector_rejects_version 2 20 true (by decide) (by decide) (by decide)

/-- C7: for every build configuration (macro values representable in `int`) the
exit status is 0 or 1; it is 0 exactly
when glibc is detected with major 2, minor at least 28 and the architecture is
x86_64, and then standard output is exactly one line and the error stream is
empty; otherwise standard output is empty and the error stream is exactly one
line, which is `unsupported standard c library` without glibc and
`unsupported machine architecture` for a supported glibc on another
architecture. -/
theorem selector_exit_contract (cfg : BuildConfig) (hfit : cfg.fitsInt) :
    ((main cfg).exit = 0 ∨ (main cfg).exit = 1) ∧
    ((main cfg).exit = 0 ↔
      ∃ minor : Int, cfg.glibc = some (2, minor) ∧ 28 ≤ minor ∧ cfg.x86_64 = true) ∧
    ((main cfg).exit = 0 → isOneLine (main cfg).stdout ∧ (main cfg).stderr = "") ∧
    ((main cfg).exit ≠ 0 →
      (main cfg).exit = 1 ∧ (main cfg).stdout = "" ∧ isOneLine (main cfg).stderr) ∧
    (cfg.glibc = none → (main cfg).stderr = "unsupported standard c library\n") ∧
    (∀ minor : Int, cfg.glibc = some (2, minor) → 28 ≤ minor → cfg.x86_64 = false →
      (main cfg).stderr = "unsupported machine architecture\n") := by
  have h10 : ¬ ((1 : Int) = 0) := by decide
  obtain ⟨g, a⟩ := cfg
  cases g with
  | none =>
    rw [main_no_glibc]
    refine ⟨Or.inr rfl, ⟨fun h => absurd h h10, ?_⟩, fun h => absurd h h10,
      fun _ => ⟨rfl, rfl, ⟨rfl, rfl⟩⟩, fun _ => rfl, ?_⟩
    · rintro ⟨_, h, _⟩
      exact absurd h (by simp)
    · intro _ h
      exact absurd h (by simp)
  | some v =>
    obtain ⟨major, minor⟩ := v
    obtain ⟨hr1, hr2⟩ : inIntRange major ∧ inIntRange minor := hfit
    by_cases hm : major = 2
    · subst hm
      by_cases h28 : 28 ≤ minor
      · cases a with
        | true =>
          rw [main_supported minor hr2 h28]
          refine ⟨Or.inl rfl, ⟨fun _ => ⟨minor, rfl, h28, rfl⟩, fun _ => rfl⟩,
            fun _ => ⟨⟨rfl, rfl⟩, rfl⟩, fun h => absurd rfl h, ?_, ?_⟩
          · intro h
            exact absurd h (by simp)
          · intro _ _ _ h
            exact absurd h (by simp)
        | false =>
          rw [main_bad_arch minor hr2 h28]
          refine ⟨Or.inr rfl, ⟨fun h => absurd h h10, ?_⟩, fun h => absurd h h10,
            fun _ => ⟨rfl, rfl, ⟨rfl, rfl⟩⟩, ?_, fun _ _ _ _ => rfl⟩
          · rintro ⟨_, _, _, h⟩
            exact absurd h (by simp)
          · intro h
            exact absurd h (by simp)
      · rw [main_bad_minor minor a hr2 h28]
        refine ⟨Or.inr rfl, ⟨fun h => absurd h h10, ?_⟩, fun h => absurd h h10,
          fun _ => ⟨rfl, rfl,
            isOneLine_diagnostic "unsupported glibc minor version " rfl _ _⟩, ?_, ?_⟩
        · rintro ⟨m, h, hm28, _⟩
          simp only [Option.some.injEq, Prod.mk.injEq, true_and] at h
          exact absurd (h ▸ hm28) h28
        · intro h
          exact absurd h (by simp)
        · intro m h hm28 _
          simp only [Option.some.injEq, Prod.mk.injEq, true_and] at h
          exact absurd (h ▸ hm28) h28
    · rw [main_bad_major major minor a hr1 hr2 hm]
      refine ⟨Or.inr rfl, ⟨fun h => absurd h h10, ?_⟩, fun h => absurd h h10,
        fun _ => ⟨rfl, rfl, isOneLine_diagnostic "unsupported glibc version " rfl _ _⟩, ?_, ?_⟩
      · rintro ⟨m, h, _, _⟩
        simp only [Option.some.injEq, Prod.mk.injEq] at h
        exact absurd h.1 hm
      · intro h
        exact absurd h (by simp)
      · intro m h _ _
        simp only [Option.some.injEq, Prod.mk.injEq] at h
        exact absurd h.1 hm

theorem selector_exit_contract_witness :
    BuildConfig.fitsInt ⟨some (2, 31), false⟩ ∧
    (((main ⟨some (2, 31), false⟩).exit = 0 ∨ (main ⟨some (2, 31), false⟩).exit = 1) ∧
    ((main ⟨some (2, 31), false⟩).exit = 0 ↔
      ∃ minor : Int, (⟨some (2, 31), false⟩ : BuildConfig).glibc = some (2, minor) ∧
        28 ≤ minor ∧ (⟨some (2, 31), false⟩ : BuildConfig).x86_64 = true) ∧
    ((main ⟨some (2, 31), false⟩).exit = 0 →
      isOneLine (main ⟨some (2, 31), false⟩).stdout ∧ (main ⟨some (2, 31), false⟩).stderr = "") ∧
    ((main ⟨some (2, 31), false⟩).exit ≠ 0 →
      (main ⟨some (2, 31), false⟩).exit = 1 ∧ (main ⟨some (2, 31), false⟩).stdout = "" ∧
        isOneLine (main ⟨some (2, 31), false⟩).stderr) ∧
    ((⟨some (2, 31), false⟩ : BuildConfig).glibc = none →
      (main ⟨some (2, 31), false⟩).stderr = "unsupported standard c library\n") ∧
    (∀ minor : Int, (⟨some (2, 31), false⟩ : BuildConfig).glibc = some (2, minor) →
      28 ≤ minor → (⟨some (2, 31), false⟩ : BuildConfig).x86_64 = false →
      (main ⟨some (2, 31), false⟩).stderr = "unsupported machine architecture\n")) :=
  ⟨⟨by decide, by decide⟩,
    selector_exit_contract ⟨some (2, 31), false⟩ ⟨by decide, by decide⟩⟩

end ComputeReleaseDirectory

/-! ## Device Probe -/

namespace HipHostTest

section paths

variable {σ : Type} (what : StoiError → String) (rt : Runtime σ) (s0 : σ) (argv : List String)

theorem main_parse_error (e : StoiError) (hp : device_ordinal argv = .error e) :
    main what rt s0 argv =
      ⟨1, "", "could not parse device ordinal from command line: " ++ what e ++ "\n", [], s0⟩ := by
  unfold main
  rw [hp]

theorem main_version_fail (n : Int) (hp : device_ordinal argv = .ok n)
    (h1 : (versionResult rt s0).1 ≠ hipSuccess) :
    main what rt s0 argv =
      ⟨2, "", "Error getting runtime version: " ++ fmt_d (versionResult rt s0).1 ++ "\n",
        (fullTrace rt s0 n).take 1, (versionResult rt s0).2.2⟩ := by
  unfold main
  rw [hp]
  simp only [versionResult] at h1
  simp only [if_pos h1, versionResult, fullTrace, List.take]

theorem main_skip (n : Int) (hp : device_ordinal argv = .ok n)
    (h1 : (versionResult rt s0).1 = hipSuccess) (hn : n < 0) :
    main what rt s0 argv =
      ⟨0, versionLine (versionResult rt s0).2.1 ++ skipMessage, "",
        (fullTrace rt s0 n).take 2, (initResult rt s0).2⟩ := by
  unfold main
  rw [hp]
  simp only [versionResult] at h1
  simp only [h1, ne_eq, not_true_eq_false, if_false, if_pos hn, versionResult, initResult,
    fullTrace, List.take, versionLine, skipMessage, List.cons_append, List.nil_append]

theorem main_init_fail (n : Int) (hp : device_ordinal argv = .ok n)
    (h1 : (versionResult rt s0).1 = hipSuccess) (hn : ¬ n < 0)
    (h2 : (initResult rt s0).1 ≠ hipSuccess) :
    main what rt s0 argv =
      ⟨3, versionLine (versionResult rt s0).2.1,
        "Error initializing HIP: " ++ fmt_d (initResult rt s0).1 ++ " (ignored)\n",
        (fullTrace rt s0 n).take 2, (initResult rt s0).2⟩ := by
  unfold main
  rw [hp]
  simp only [versionResult] at h1
  simp only [initResult, versionResult] at h2
  simp only [h1, ne_eq, not_true_eq_false, if_false, if_neg hn, versionResult, initResult,
    fullTrace, List.take, versionLine, List.cons_append, List.nil_append]
  simp only [← ne_eq, if_pos h2]

theorem main_device_fail (n : Int) (hp : device_ordinal argv = .ok n)
    (h1 : (versionResult rt s0).1 = hipSuccess) (hn : ¬ n < 0)
    (h2 : (initResult rt s0).1 = hipSuccess) (h3 : (deviceResult rt s0 n).1 ≠ hipSuccess) :
    main what rt s0 argv =
      ⟨4, versionLine (versionResult rt s0).2.1,
        "Error getting device ordinal " ++ fmt_d n ++ "\n",
        (fullTrace rt s0 n).take 3, (deviceResult rt s0 n).2.2⟩ := by
  unfold main
  rw [hp]
  simp only [versionResult] at h1
  simp only [initResult, versionResult] at h2
  simp only [deviceResult, initResult, versionResult] at h3
  simp only [h1, h2, ne_eq, not_true_eq_false, if_false, if_neg hn, versionResult, initResult,
    deviceResult, fullTrace, List.take, versionLine, List.cons_append, List.nil_append]
  simp only [← ne_eq, if_pos h3]

theorem main_name_fail (n : Int) (hp : device_ordinal argv = .ok n)
    (h1 : (versionResult rt s0).1 = hipSuccess) (hn : ¬ n < 0)
    (h2 : (initResult rt s0).1 = hipSuccess) (h3 : (deviceResult rt s0 n).1 = hipSuccess)
    (h4 : (nameResult rt s0 n).1 ≠ hipSuccess) :
    main what rt s0 argv =
      ⟨5, versionLine (versionResult rt s0).2.1, "Error getting device name \n",
        (fullTrace rt s0 n).take 4, (nameResult rt s0 n).2.2⟩ := by
  unfold main
  rw [hp]
  simp only [versionResult] at h1
  simp only [initResult, versionResult] at h2
  simp only [deviceResult, initResult, versionResult] at h3
  simp only [nameResult, deviceResult, initResult, versionResult] at h4
  simp only [h1, h2, h3, ne_eq, not_true_eq_false, if_false, if_neg hn, versionResult,
    initResult, deviceResult, nameResult, fullTrace, List.take, versionLine, List.cons_append,
    List.nil_append, Nat.reduceSub]
  simp only [← ne_eq, if_pos h4]

theorem main_mem_fail (n : Int) (hp : device_ordinal argv = .ok n)
    (h1 : (versionResult rt s0).1 = hipSuccess) (hn : ¬ n < 0)
    (h2 : (initResult rt s0).1 = hipSuccess) (h3 : (deviceResult rt s0 n).1 = hipSuccess)
    (h4 : (nameResult rt s0 n).1 = hipSuccess) (h5 : (memResult rt s0 n).1 ≠ hipSuccess) :
    main what rt s0 argv =
      ⟨6, versionLine (versionResult rt s0).2.1 ++ "Device name: " ++
            (nameResult rt s0 n).2.1 ++ "\n",
        "Error getting device memory\n", fullTrace rt s0 n, (memResult rt s0 n).2.2⟩ := by
  unfold main
  rw [hp]
  simp only [versionResult] at h1
  simp only [initResult, versionResult] at h2
  simp only [deviceResult, initResult, versionResult] at h3
  simp only [nameResult, deviceResult, initResult, versionResult] at h4
  simp only [memResult, nameResult, deviceResult, initResult, versionResult] at h5
  simp only [h1, h2, h3, h4, ne_eq, not_true_eq_false, if_false, if_neg hn, versionResult,
    initResult, deviceResult, nameResult, memResult, fullTrace, versionLine, List.cons_append,
    List.nil_append, Nat.reduceSub]
  simp only [← ne_eq, if_pos h5]

theorem main_success (n : Int) (hp : device_ordinal argv = .ok n)
    (h1 : (versionResult rt s0).1 = hipSuccess) (hn : ¬ n < 0)
    (h2 : (initResult rt s0).1 = hipSuccess) (h3 : (deviceResult rt s0 n).1 = hipSuccess)
    (h4 : (nameResult rt s0 n).1 = hipSuccess) (h5 : (memResult rt s0 n).1 = hipSuccess) :
    main what rt s0 argv =
      ⟨0, versionLine (versionResult rt s0).2.1 ++ "Device name: " ++
            (nameResult rt s0 n).2.1 ++ "\n" ++ "Device memory: " ++
            fmt_d (((memResult rt s0 n).2.1 % 2 ^ 64 / 1024 / 1024 : Nat) : Int) ++ " MiB\n",
        "", fullTrace rt s0 n, (memResult rt s0 n).2.2⟩ := by
  unfold main
  rw [hp]
  simp only [versionResult] at h1
  simp only [initResult, versionResult] at h2
  simp only [deviceResult, initResult, versionResult] at h3
  simp only [nameResult, deviceResult, initResult, versionResult] at h4
  simp only [memResult, nameResult, deviceResult, initResult, versionResult] at h5
  simp only [h1, h2, h3, h4, h5, ne_eq, not_true_eq_false, if_false, if_neg hn, versionResult,
    initResult, deviceResult, nameResult, memResult, fullTrace, versionLine, List.cons_append,
    List.nil_append, Nat.reduceSub]

end paths

/-- On a successful parse the trace is an initial segment of the five calls, of
length at most two for a negative ordinal, in which only the last call or the
initialization can have failed. -/
theorem trace_is_take {σ : Type} (what : StoiError → String) (rt : Runtime σ) (s0 : σ)
    (argv : List String) (n : Int) (hp : device_ordinal argv = .ok n) :
    ∃ k, (main what rt s0 argv).trace = (fullTrace rt s0 n).take k ∧ (n < 0 → k ≤ 2) ∧
      ∀ ev ∈ ((fullTrace rt s0 n).take k).dropLast,
        ev.2 = hipSuccess ∨ ev.1 = Call.hipInit 0 := by
  by_cases h1 : (versionResult rt s0).1 = hipSuccess
  · by_cases hn : n < 0
    · refine ⟨2, by rw [main_skip what rt s0 argv n hp h1 hn], fun _ => le_refl 2, ?_⟩
      intro ev hev
      simp only [fullTrace, List.take, List.dropLast, List.mem_singleton] at hev
      subst hev
      exact Or.inl h1
    · by_cases h2 : (initResult rt s0).1 = hipSuccess
      · by_cases h3 : (deviceResult rt s0 n).1 = hipSuccess
        · by_cases h4 : (nameResult rt s0 n).1 = hipSuccess
          · have htr : (main what rt s0 argv).trace = (fullTrace rt s0 n).take 5 := by
              by_cases h5 : (memResult rt s0 n).1 = hipSuccess
              · rw [main_success what rt s0 argv n hp h1 hn h2 h3 h4 h5]; rfl
              · rw [main_mem_fail what rt s0 argv n hp h1 hn h2 h3 h4 h5]; rfl
            refine ⟨5, htr, fun h => absurd h hn, ?_⟩
            intro ev hev
            simp only [fullTrace, List.take, List.dropLast, List.mem_cons, List.mem_singleton,
              List.not_mem_nil, or_false] at hev
            rcases hev with rfl | rfl | rfl | rfl
            · exact Or.inl h1
            · exact Or.inr rfl
            · exact Or.inl h3
            · exact Or.inl h4
          · refine ⟨4, by rw [main_name_fail what rt s0 argv n hp h1 hn h2 h3 h4],
              fun h => absurd h hn, ?_⟩
            intro ev hev
            simp only [fullTrace, List.take, List.dropLast, List.mem_cons, List.mem_singleton,
              List.not_mem_nil, or_false] at hev
            rcases hev with rfl | rfl | rfl
            · exact Or.inl h1
            · exact Or.inr rfl
            · exact Or.inl h3
        · refine ⟨3, by rw [main_device_fail what rt s0 argv n hp h1 hn h2 h3],
            fun h => absurd h hn, ?_⟩
          intro ev hev
          simp only [fullTrace, List.take, List.dropLast, List.mem_cons, List.mem_singleton,
            List.not_mem_nil, or_false] at hev
          rcases hev with rfl | rfl
          · exact Or.inl h1
          · exact Or.inr rfl
      · refine ⟨2, by rw [main_init_fail what rt s0 argv n hp h1 hn h2],
          fun _ => le_refl 2, ?_⟩
        intro ev hev
        simp only [fullTrace, List.take, List.dropLast, List.mem_singleton] at hev
        subst hev
        exact Or.inl h1
  · refine ⟨1, by rw [main_version_fail what rt s0 argv n hp h1], fun _ => by decide, ?_⟩
    intro ev hev
    simp [fullTrace, List.take, List.dropLast] at hev

theorem device_ordinal_present (prog arg : String) (rest : List String) :
    device_ordinal (prog :: arg :: rest) = stoi arg := by
  simp [device_ordinal]

/-- C1: for every first argument that parses to a non-negative ordinal and every
behaviour of the runtime, the exit status is 2 if the version query fails, else
3 if initialization fails, else 4 if device resolution fails, else 5 if the name
query fails, else 6 if the memory query fails, else 0; so it is one of
0, 2, 3, 4, 5, 6. -/
theorem probe_exit_names_first_failure {σ : Type} (what : StoiError → String)
    (rt : Runtime σ) (s0 : σ) (argv : List String) (n : Int)
    (hp : device_ordinal argv = .ok n) (hn : 0 ≤ n) :
    (main what rt s0 argv).exit =
      firstFailure (versionResult rt s0).1 (initResult rt s0).1 (deviceResult rt s0 n).1
        (nameResult rt s0 n).1 (memResult rt s0 n).1 ∧
    (main what rt s0 argv).exit ∈ [0, 2, 3, 4, 5, 6] := by
  have hn0 : ¬ n < 0 := not_lt.mpr hn
  by_cases h1 : (versionResult rt s0).1 = hipSuccess
  · by_cases h2 : (initResult rt s0).1 = hipSuccess
    · by_cases h3 : (deviceResult rt s0 n).1 = hipSuccess
      · by_cases h4 : (nameResult rt s0 n).1 = hipSuccess
        · by_cases h5 : (memResult rt s0 n).1 = hipSuccess
          · rw [main_success what rt s0 argv n hp h1 hn0 h2 h3 h4 h5]
            simp [firstFailure, h1, h2, h3, h4, h5]
          · rw [main_mem_fail what rt s0 argv n hp h1 hn0 h2 h3 h4 h5]
            simp [firstFailure, h1, h2, h3, h4, h5]
        · rw [main_name_fail what rt s0 argv n hp h1 hn0 h2 h3 h4]
          simp [firstFailure, h1, h2, h3, h4]
      · rw [main_device_fail what rt s0 argv n hp h1 hn0 h2 h3]
        simp [firstFailure, h1, h2, h3]
    · rw [main_init_fail what rt s0 argv n hp h1 hn0 h2]
      simp [firstFailure, h1, h2]
  · rw [main_version_fail what rt s0 argv n hp h1]
    simp [firstFailure, h1]

theorem probe_exit_names_first_failure_witness :
    (main gnuWhat (constRuntime 0 0 0 7 0 60342134 0 "gfx942" 1048576) () ["hip-host-test", "0"]).exit
      = firstFailure 0 0 0 7 0 ∧
    (main gnuWhat (constRuntime 0 0 0 7 0 60342134 0 "gfx942" 1048576) () ["hip-host-test", "0"]).exit
      ∈ [0, 2, 3, 4, 5, 6] :=
  probe_exit_names_first_failure gnuWhat (constRuntime 0 0 0 7 0 60342134 0 "gfx942" 1048576) ()
    ["hip-host-test", "0"] 0 rfl (by decide)

/-- C2, as stated, fails: with no argument and a failing version query the probe
exits 2 and writes nothing to standard output, so no skip message. -/
theorem probe_skip_counterexample :
    device_ordinal ["hip-host-test"] = .ok (-1) ∧
    (main gnuWhat (constRuntime 1 0 0 0 0 0 0 "" 0) () ["hip-host-test"]).exit = 2 ∧
    (main gnuWhat (constRuntime 1 0 0 0 0 0 0 "" 0) () ["hip-host-test"]).stdout = "" :=
  ⟨rfl, rfl, rfl⟩

/-- C2, amended: for every invocation whose ordinal is absent or negative and
whose version query succeeds, the probe writes the version line and then the
skip message to standard output, nothing to the error stream, and exits 0,
whatever initialization returns. -/
theorem probe_skip_when_version_ok {σ : Type} (what : StoiError → String)
    (rt : Runtime σ) (s0 : σ) (argv : List String) (n : Int)
    (hp : device_ordinal argv = .ok n) (hn : n < 0)
    (h1 : (versionResult rt s0).1 = hipSuccess) :
    (main what rt s0 argv).exit = 0 ∧
    (main what rt s0 argv).stdout = versionLine (versionResult rt s0).2.1 ++
      "Not testing on GPU device (no device ordinal passed)\n" ∧
    (main what rt s0 argv).stderr = "" := by
  rw [main_skip what rt s0 argv n hp h1 hn]
  exact ⟨rfl, rfl, rfl⟩

theorem probe_skip_when_version_ok_witness :
    (main gnuWhat (constRuntime 0 3 0 0 0 60342134 0 "" 0) () ["hip-host-test", "-3"]).exit = 0 ∧
    (main gnuWhat (constRuntime 0 3 0 0 0 60342134 0 "" 0) () ["hip-host-test", "-3"]).stdout =
      versionLine (versionResult (constRuntime 0 3 0 0 0 60342134 0 "" 0) ()).2.1 ++
      "Not testing on GPU device (no device ordinal passed)\n" ∧
    (main gnuWhat (constRuntime 0 3 0 0 0 60342134 0 "" 0) () ["hip-host-test", "-3"]).stderr = "" :=
  probe_skip_when_version_ok gnuWhat (constRuntime 0 3 0 0 0 60342134 0 "" 0) ()
    ["hip-host-test", "-3"] (-3) rfl (by decide) rfl

/-- C5, as stated, fails: `12abc` is not the base-10 text of an integer, yet
`std::stoi` converts its leading digits to 12 and the probe goes on to make all
five runtime calls and exits 0. -/
theorem probe_parse_counterexample :
    isDecimalInteger "12abc" = false ∧
    (main gnuWhat (constRuntime 0 0 0 0 0 60342134 0 "gfx942" 1048576) ()
      ["hip-host-test", "12abc"]).exit = 0 ∧
    (main gnuWhat (constRuntime 0 0 0 0 0 60342134 0 "gfx942" 1048576) ()
      ["hip-host-test", "12abc"]).trace.map Prod.fst =
      [Call.hipRuntimeGetVersion, Call.hipInit 0, Call.hipDeviceGet 12,
        Call.hipDeviceGetName 79 0, Call.hipDeviceTotalMem 0] :=
  ⟨rfl, rfl, rfl⟩

/-- C5, amended: for every first argument that `std::stoi` cannot convert (no
decimal digit after optional white space and sign, or a value outside `int`),
the probe exits 1 with the parse error on the error stream, nothing on standard
output, and no call to the GPU runtime. -/
theorem probe_parse_failure {σ : Type} (what : StoiError → String)
    (rt : Runtime σ) (s0 : σ) (prog arg : String) (rest : List String) (e : StoiError)
    (h : stoi arg = .error e) :
    (main what rt s0 (prog :: arg :: rest)).exit = 1 ∧
    (main what rt s0 (prog :: arg :: rest)).stderr =
      "could not parse device ordinal from command line: " ++ what e ++ "\n" ∧
    (main what rt s0 (prog :: arg :: rest)).stdout = "" ∧
    (main what rt s0 (prog :: arg :: rest)).trace = [] := by
  have hp : device_ordinal (prog :: arg :: rest) = .error e := by
    rw [device_ordinal_present, h]
  rw [main_parse_error what rt s0 _ e hp]
  exact ⟨rfl, rfl, rfl, rfl⟩

theorem probe_parse_failure_witness :
    (main gnuWhat (constRuntime 0 0 0 0 0 60342134 0 "gfx942" 1048576) ()
      ("hip-host-test" :: "gpu0" :: [])).exit = 1 ∧
    (main gnuWhat (constRuntime 0 0 0 0 0 60342134 0 "gfx942" 1048576) ()
      ("hip-host-test" :: "gpu0" :: [])).stderr =
      "could not parse device ordinal from command line: " ++
        gnuWhat StoiError.invalid_argument ++ "\n" ∧
    (main gnuWhat (constRuntime 0 0 0 0 0 60342134 0 "gfx942" 1048576) ()
      ("hip-host-test" :: "gpu0" :: [])).stdout = "" ∧
    (main gnuWhat (constRuntime 0 0 0 0 0 60342134 0 "gfx942" 1048576) ()
      ("hip-host-test" :: "gpu0" :: [])).trace = [] :=
  probe_parse_failure gnuWhat (constRuntime 0 0 0 0 0 60342134 0 "gfx942" 1048576) ()
    "hip-host-test" "gpu0" [] StoiError.invalid_argument rfl

/-- C6: for every non-negative ordinal and every runtime whose five calls succeed
and whose total-memory query returns `mem` bytes, `mem` an unsigned 64-bit
value, the last line of standard output is `Device memory: <k> MiB` with
`k = mem / 1048576`, the truncating quotient, which is `(mem / 1024) / 1024`. -/
theorem probe_memory_in_mib {σ : Type} (what : StoiError → String)
    (rt : Runtime σ) (s0 : σ) (argv : List String) (n : Int) (mem : Nat)
    (hp : device_ordinal argv = .ok n) (hn : 0 ≤ n)
    (h1 : (versionResult rt s0).1 = hipSuccess) (h2 : (initResult rt s0).1 = hipSuccess)
    (h3 : (deviceResult rt s0 n).1 = hipSuccess) (h4 : (nameResult rt s0 n).1 = hipSuccess)
    (h5 : (memResult rt s0 n).1 = hipSuccess)
    (hmem : (memResult rt s0 n).2.1 = mem) (h64 : mem < 2 ^ 64) :
    (main what rt s0 argv).stdout =
      versionLine (versionResult rt s0).2.1 ++
      "Device name: " ++ (nameResult rt s0 n).2.1 ++ "\n" ++
      "Device memory: " ++ fmt_d ((mem / 1048576 : Nat) : Int) ++ " MiB\n" ∧
    mem / 1024 / 1024 = mem / 1048576 ∧
    1048576 * (mem / 1048576) ≤ mem ∧ mem < 1048576 * (mem / 1048576 + 1) := by
  have hdiv : mem / 1024 / 1024 = mem / 1048576 := by
    rw [Nat.div_div_eq_div_mul]
  rw [main_success what rt s0 argv n hp h1 (not_lt.mpr hn) h2 h3 h4 h5, hmem,
    Nat.mod_eq_of_lt h64, hdiv]
  refine ⟨rfl, rfl, Nat.mul_div_le mem 1048576, ?_⟩
  exact Nat.lt_mul_div_succ mem (by decide)

theorem probe_memory_in_mib_witness :
    (main gnuWhat (constRuntime 0 0 0 0 0 60342134 5 "gfx942" 206141652991) ()
      ["hip-host-test", "1"]).stdout =
      versionLine (versionResult (constRuntime 0 0 0 0 0 60342134 5 "gfx942" 206141652991) ()).2.1 ++
      "Device name: " ++
      (nameResult (constRuntime 0 0 0 0 0 60342134 5 "gfx942" 206141652991) () 1).2.1 ++ "\n" ++
      "Device memory: " ++ fmt_d ((206141652991 / 1048576 : Nat) : Int) ++ " MiB\n" ∧
    206141652991 / 1024 / 1024 = 206141652991 / 1048576 ∧
    1048576 * (206141652991 / 1048576) ≤ 206141652991 ∧
    206141652991 < 1048576 * (206141652991 / 1048576 + 1) :=
  probe_memory_in_mib gnuWhat (constRuntime 0 0 0 0 0 60342134 5 "gfx942" 206141652991) ()
    ["hip-host-test", "1"] 1 206141652991 rfl (by decide) rfl rfl rfl rfl rfl rfl (by decide)

/-- C8: for every invocation whose argument is absent or parses to an integer,
if the version query fails with code `err` the probe exits 2, writes
`Error getting runtime version: <err>` to the error stream and nothing to
standard output, and the version query is the only runtime call it makes. -/
theorem probe_version_failure {σ : Type} (what : StoiError → String)
    (rt : Runtime σ) (s0 : σ) (argv : List String) (n : Int)
    (hp : device_ordinal argv = .ok n) (h1 : (versionResult rt s0).1 ≠ hipSuccess) :
    (main what rt s0 argv).exit = 2 ∧
    (main what rt s0 argv).stderr =
      "Error getting runtime version: " ++ fmt_d ((versionResult rt s0).1 : Nat) ++ "\n" ∧
    (main what rt s0 argv).stdout = "" ∧
    (main what rt s0 argv).trace = [(Call.hipRuntimeGetVersion, (versionResult rt s0).1)] := by
  rw [main_version_fail what rt s0 argv n hp h1]
  exact ⟨rfl, rfl, rfl, rfl⟩

theorem probe_version_failure_witness :
    (main gnuWhat (constRuntime 100 0 0 0 0 0 0 "" 0) () ["hip-host-test", "-2"]).exit = 2 ∧
    (main gnuWhat (constRuntime 100 0 0 0 0 0 0 "" 0) () ["hip-host-test", "-2"]).stderr =
      "Error getting runtime version: " ++
        fmt_d ((versionResult (constRuntime 100 0 0 0 0 0 0 "" 0) ()).1 : Nat) ++ "\n" ∧
    (main gnuWhat (constRuntime 100 0 0 0 0 0 0 "" 0) () ["hip-host-test", "-2"]).stdout = "" ∧
    (main gnuWhat (constRuntime 100 0 0 0 0 0 0 "" 0) () ["hip-host-test", "-2"]).trace =
      [(Call.hipRuntimeGetVersion, (versionResult (constRuntime 100 0 0 0 0 0 0 "" 0) ()).1)] :=
  probe_version_failure gnuWhat (constRuntime 100 0 0 0 0 0 0 "" 0) ()
    ["hip-host-test", "-2"] (-2) rfl (by decide)

/-- C9, as stated, fails: with no argument and a failing initialization the probe
exits 0 with an empty error stream and only the version line and the skip
message on standard output; the initialization failure is written nowhere. -/
theorem probe_init_failure_not_logged :
    (initResult (constRuntime 0 3 0 0 0 60342134 0 "" 0) ()).1 ≠ hipSuccess ∧
    (main gnuWhat (constRuntime 0 3 0 0 0 60342134 0 "" 0) () ["hip-host-test"]).exit = 0 ∧
    (main gnuWhat (constRuntime 0 3 0 0 0 60342134 0 "" 0) () ["hip-host-test"]).stderr = "" ∧
    (main gnuWhat (constRuntime 0 3 0 0 0 60342134 0 "" 0) () ["hip-host-test"]).stdout =
      "HIP runtime version: 60342134\nNot testing on GPU device (no device ordinal passed)\n" :=
  ⟨by decide, rfl, rfl, rfl⟩

/-- C9, amended: for every invocation whose ordinal is absent or negative and in
which initialization fails, the failure is ignored silently: the error stream
stays empty, standard output holds exactly the version line and the skip
message, and the probe exits 0. -/
theorem probe_init_failure_ignored {σ : Type} (what : StoiError → String)
    (rt : Runtime σ) (s0 : σ) (argv : List String) (n : Int)
    (hp : device_ordinal argv = .ok n) (hn : n < 0)
    (h1 : (versionResult rt s0).1 = hipSuccess) (h2 : (initResult rt s0).1 ≠ hipSuccess) :
    (main what rt s0 argv).exit = 0 ∧
    (main what rt s0 argv).stderr = "" ∧
    (main what rt s0 argv).stdout = versionLine (versionResult rt s0).2.1 ++ skipMessage ∧
    (main what rt s0 argv).trace =
      [(Call.hipRuntimeGetVersion, hipSuccess), (Call.hipInit 0, (initResult rt s0).1)] := by
  have _ := h2
  rw [main_skip what rt s0 argv n hp h1 hn]
  refine ⟨rfl, rfl, rfl, ?_⟩
  simp only [fullTrace, List.take, h1]

theorem probe_init_failure_ignored_witness :
    (main gnuWhat (constRuntime 0 1 0 0 0 60342134 0 "" 0) () ["hip-host-test", "-1"]).exit = 0 ∧
    (main gnuWhat (constRuntime 0 1 0 0 0 60342134 0 "" 0) () ["hip-host-test", "-1"]).stderr = "" ∧
    (main gnuWhat (constRuntime 0 1 0 0 0 60342134 0 "" 0) () ["hip-host-test", "-1"]).stdout =
      versionLine (versionResult (constRuntime 0 1 0 0 0 60342134 0 "" 0) ()).2.1 ++ skipMessage ∧
    (main gnuWhat (constRuntime 0 1 0 0 0 60342134 0 "" 0) () ["hip-host-test", "-1"]).trace =
      [(Call.hipRuntimeGetVersion, hipSuccess),
        (Call.hipInit 0, (initResult (constRuntime 0 1 0 0 0 60342134 0 "" 0) ()).1)] :=
  probe_init_failure_ignored gnuWhat (constRuntime 0 1 0 0 0 60342134 0 "" 0) ()
    ["hip-host-test", "-1"] (-1) rfl (by decide) rfl (by decide)

/-- C10: for every argument vector and every runtime, the calls made are a prefix
of version query, `hipInit(0)`, `hipDeviceGet(ordinal)`,
`hipDeviceGetName(79 bytes)` and `hipDeviceTotalMem` on the resolved device, in
that order (none at all on a parse error); every call that is followed by
another one either succeeded or is the initialization; and when the ordinal is
absent or negative no call beyond version query and initialization is made. -/
theorem probe_call_sequence {σ : Type} (what : StoiError → String)
    (rt : Runtime σ) (s0 : σ) (argv : List String) :
    (∀ e, device_ordinal argv = .error e → (main what rt s0 argv).trace = []) ∧
    (∀ n, device_ordinal argv = .ok n →
      (main what rt s0 argv).trace <+: fullTrace rt s0 n ∧
      ((main what rt s0 argv).trace.map Prod.fst <+:
        [Call.hipRuntimeGetVersion, Call.hipInit 0, Call.hipDeviceGet n,
          Call.hipDeviceGetName 79 (deviceResult rt s0 n).2.1,
          Call.hipDeviceTotalMem (deviceResult rt s0 n).2.1]) ∧
      (n < 0 → (main what rt s0 argv).trace.map Prod.fst <+:
        [Call.hipRuntimeGetVersion, Call.hipInit 0])) ∧
    (main what rt s0 argv).trace.length ≤ 5 ∧
    ((main what rt s0 argv).trace.map Prod.fst).Nodup ∧
    (∀ ev ∈ (main what rt s0 argv).trace.dropLast,
      ev.2 = hipSuccess ∨ ev.1 = Call.hipInit 0) := by
  cases hp : device_ordinal argv with
  | error e =>
    have htr : (main what rt s0 argv).trace = [] := by
      rw [main_parse_error what rt s0 argv e hp]
    rw [htr]
    refine ⟨fun _ _ => rfl, fun n h => ?_, by decide, List.nodup_nil, ?_⟩
    · exact absurd h (by simp)
    · intro ev hev
      simp at hev
  | ok n =>
    obtain ⟨k, htr, hk, hfail⟩ := trace_is_take what rt s0 argv n hp
    rw [htr]
    have hfst : (fullTrace rt s0 n).map Prod.fst =
        [Call.hipRuntimeGetVersion, Call.hipInit 0, Call.hipDeviceGet n,
          Call.hipDeviceGetName 79 (deviceResult rt s0 n).2.1,
          Call.hipDeviceTotalMem (deviceResult rt s0 n).2.1] := rfl
    have hpre : ((fullTrace rt s0 n).take k).map Prod.fst <+:
        [Call.hipRuntimeGetVersion, Call.hipInit 0, Call.hipDeviceGet n,
          Call.hipDeviceGetName 79 (deviceResult rt s0 n).2.1,
          Call.hipDeviceTotalMem (deviceResult rt s0 n).2.1] := by
      rw [← hfst]
      exact (List.take_prefix k _).map Prod.fst
    have hnodup : ((fullTrace rt s0 n).take k).map Prod.fst |>.Nodup := by
      refine hpre.sublist.nodup ?_
      simp
    refine ⟨fun e h => absurd h (by simp), ?_, ?_, hnodup, hfail⟩
    · intro m hm
      have hmn : n = m := by
        simpa using hm
      subst hmn
      refine ⟨List.take_prefix k _, hpre, fun hneg => ?_⟩
      have h2 : ((fullTrace rt s0 n).take k).map Prod.fst <+:
          ((fullTrace rt s0 n).take 2).map Prod.fst :=
        (List.take_prefix_take_left _ (hk hneg)).map Prod.fst
      exact h2
    · exact (List.length_take_le' k _).trans (le_of_eq rfl)

end HipHostTest
